import Mathlib

/-!
Shallow embedding of the Flappy Dragon game (`src/main.rs`).

Machine `f32` values (player `y`, `velocity`, `frame_time`) are modelled as
exact rationals `ℚ`; `i32` values as `ℤ`.  The external `bracket_lib`
terminal (`BTerm`) is modelled as a record carrying the per-tick inputs
(`frame_time_ms`, `key`) and an output list of draw commands, so that every
mutating method of the Rust code becomes a function returning the updated
entity together with the updated terminal.  The external random number
generator is modelled by threading the raw draw (a natural number) into each
constructor call.
-/

namespace FlappyDragon

/-- `SCREEN_WIDTH` constant of the source. -/
def SCREEN_WIDTH : ℤ := 40

/-- `SCREEN_HEIGHT` constant of the source. -/
def SCREEN_HEIGHT : ℤ := 25

/-- `FRAME_DURATION` constant of the source (game speed, in ms). -/
def FRAME_DURATION : ℚ := 50

/-- `TERMINAL_VELOCITY` constant of the source. -/
def TERMINAL_VELOCITY : ℚ := 1

/-- `DELTA_V` constant of the source (gravity increment per physics step). -/
def DELTA_V : ℚ := 1/10

/-- `FLAP_DELTA_V` constant of the source (upward impulse). -/
def FLAP_DELTA_V : ℚ := -(1/2)

/-- `DRAGON_GLYPTH` constant of the source. -/
def DRAGON_GLYPTH : ℤ := 64

/-- `WALL_GLYPH` constant of the source. -/
def WALL_GLYPH : ℤ := 179

/-- `GROUND_GLPYH` constant of the source. -/
def GROUND_GLPYH : ℤ := 35

/-- `GAP_Y_MIN` constant of the source. -/
def GAP_Y_MIN : ℤ := 5

/-- `GAP_Y_MAX` constant of the source. -/
def GAP_Y_MAX : ℤ := 20

/-- The Rust `f32 as i32` cast on the values reached by the game: truncation
toward zero.  On a rational `q` this is t-division of the numerator by the
denominator. -/
def i32Trunc (q : ℚ) : ℤ := Int.tdiv q.num (q.den : ℤ)

/-- Colors used by the draw calls of the game. -/
inductive Color
  | yellow | navy | gray | cyan | magenta | white | red | black
deriving DecidableEq, Repr

/-- The key codes the game inspects (`VirtualKeyCode`); every other key is
`Other`. -/
inductive Key
  | Space | P | Q | Other
deriving DecidableEq, Repr

/-- One drawing primitive issued to the external terminal. -/
inductive DrawCmd
  | cls
  | clsBg (bg : Color)
  | setActiveConsole (n : ℤ)
  | setFancy (x y : ℚ) (z : ℤ) (rotation : ℚ) (scaleX scaleY : ℚ)
      (fg bg : Color) (glyph : ℤ)
  | setCell (x y : ℤ) (fg bg : Color) (glyph : ℤ)
  | printColor (x y : ℤ) (fg bg : Color) (text : String)
  | printColorCentered (y : ℤ) (fg bg : Color) (text : String)
  | printCentered (y : ℤ) (text : String)
deriving DecidableEq, Repr

/-- Model of the external `BTerm` context: the per-tick inputs the game reads
(`frame_time_ms`, `key`), the `quitting` flag it may set, and the list of
draw commands issued so far. -/
structure BTerm where
  frame_time_ms : ℚ
  key : Option Key
  quitting : Bool
  commands : List DrawCmd
deriving DecidableEq, Repr

/-- Append one draw command to the terminal. -/
def BTerm.push (ctx : BTerm) (cmd : DrawCmd) : BTerm :=
  { ctx with commands := ctx.commands ++ [cmd] }

/-- The list of integers `lo, lo+1, ..., hi-1` (a Rust `lo..hi` loop range). -/
def intRange (lo hi : ℤ) : List ℤ :=
  (List.range (hi - lo).toNat).map (fun i => lo + (i : ℤ))

/-- The `Player` struct of the source. -/
structure Player where
  x : ℤ
  y : ℚ
  velocity : ℚ
deriving DecidableEq, Repr

/-- `Player::new`. -/
def Player.new (x y : ℤ) : Player :=
  { x := x, y := (y : ℚ), velocity := 0 }

/-- `Player::render`: draws the dragon sprite on console 1; `&mut self` is
never written, so the player comes back unchanged. -/
def Player.render (p : Player) (ctx : BTerm) : Player × BTerm :=
  let ctx := ctx.push (DrawCmd.setActiveConsole 1)
  let ctx := ctx.push DrawCmd.cls
  let ctx := ctx.push
    (DrawCmd.setFancy 0 p.y 1 0 2 2 Color.yellow Color.navy DRAGON_GLYPTH)
  let ctx := ctx.push (DrawCmd.setActiveConsole 0)
  (p, ctx)

/-- `Player::gravity_and_move`. -/
def Player.gravity_and_move (p : Player) : Player :=
  let velocity :=
    if p.velocity < TERMINAL_VELOCITY then p.velocity + DELTA_V else p.velocity
  let y := p.y + velocity
  let x := p.x + 1
  let y := if y < 0 then 0 else y
  { x := x, y := y, velocity := velocity }

/-- `Player::flap`. -/
def Player.flap (p : Player) : Player :=
  { p with velocity := FLAP_DELTA_V }

/-- The `Obstacle` struct of the source. -/
structure Obstacle where
  x : ℤ
  gap_y : ℤ
  size : ℤ
deriving DecidableEq, Repr

/-- Model of the external `bracket_lib` `RandomNumberGenerator::range(lo, hi)`
call: it samples uniformly from the half-open interval `[lo, hi)` (the upper
bound is exclusive).  The injectable random source is the raw `draw`; the
sampled value is `lo + draw % (hi - lo)`. -/
def rngRange (lo hi : ℤ) (draw : ℕ) : ℤ :=
  lo + (draw : ℤ) % (hi - lo)

/-- `Obstacle::new`; `draw` is the value supplied by the injectable random
source. -/
def Obstacle.new (x score : ℤ) (draw : ℕ) : Obstacle :=
  { x := x
    gap_y := rngRange GAP_Y_MIN GAP_Y_MAX draw
    size := max 2 (20 - score) }

/-- `Obstacle::render`: draws the two wall segments; `&mut self` is never
written, so the obstacle comes back unchanged. -/
def Obstacle.render (o : Obstacle) (ctx : BTerm) (player_x : ℤ) :
    Obstacle × BTerm :=
  let screen_x := o.x - player_x
  let half_size := Int.tdiv o.size 2
  let ctx := (intRange 0 (o.gap_y - half_size)).foldl
    (fun c y => c.push (DrawCmd.setCell screen_x y Color.gray Color.navy WALL_GLYPH))
    ctx
  let ctx := (intRange (o.gap_y + half_size) SCREEN_HEIGHT).foldl
    (fun c y => c.push (DrawCmd.setCell screen_x y Color.gray Color.navy WALL_GLYPH))
    ctx
  (o, ctx)

/-- `Obstacle::hit_obstacle`. -/
def Obstacle.hit_obstacle (o : Obstacle) (p : Player) : Bool :=
  let half_size := Int.tdiv o.size 2
  let does_x_match := p.x == o.x
  let player_above_gap := decide (p.y < ((o.gap_y - half_size : ℤ) : ℚ))
  let player_below_gap := decide (p.y > ((o.gap_y + half_size : ℤ) : ℚ))
  does_x_match && (player_above_gap || player_below_gap)

/-- The `GameMode` enum of the source. -/
inductive GameMode
  | Menu | Playing | End
deriving DecidableEq, Repr

/-- The `State` struct of the source. -/
structure State where
  player : Player
  frame_time : ℚ
  mode : GameMode
  score : ℤ
  obstacle : Obstacle
deriving DecidableEq, Repr

/-- `State::new`; `draw` feeds the random source of the initial obstacle. -/
def State.new (draw : ℕ) : State :=
  { player := Player.new 5 (SCREEN_HEIGHT / 2)
    frame_time := 0
    mode := GameMode.Menu
    score := 0
    obstacle := Obstacle.new SCREEN_WIDTH 0 draw }

/-- `State::restart`; `draw` feeds the random source of the fresh obstacle. -/
def State.restart (s : State) (draw : ℕ) : State :=
  { player := Player.new 5 (SCREEN_HEIGHT / 2)
    frame_time := 0
    mode := GameMode.Playing
    score := 0
    obstacle := Obstacle.new SCREEN_WIDTH 0 draw }

/-- `State::play`: one Playing-mode tick.  `draw` feeds the random source of
the replacement obstacle, if one is created this tick. -/
def State.play (s : State) (ctx : BTerm) (draw : ℕ) : State × BTerm :=
  let ctx1 := ctx.push (DrawCmd.clsBg Color.navy)
  let ftAcc := s.frame_time + ctx.frame_time_ms
  let frame_time := if ftAcc > FRAME_DURATION then 0 else ftAcc
  let p1 := if ftAcc > FRAME_DURATION then s.player.gravity_and_move else s.player
  let p2 := if ctx.key = some Key.Space then p1.flap else p1
  let pr := p2.render ctx1
  let obr := s.obstacle.render pr.2 pr.1.x
  let passed := pr.1.x > obr.1.x
  let score := if passed then s.score + 1 else s.score
  let obstacle :=
    if passed then Obstacle.new (pr.1.x + SCREEN_WIDTH) (s.score + 1) draw
    else obr.1
  let ctx2 := (obr.2.push
      (DrawCmd.printColor 0 0 Color.cyan Color.navy "Press SPACE to flap.")).push
    (DrawCmd.printColor 0 1 Color.magenta Color.navy
      (String.append "Score: " (toString score)))
  let ctx3 := render_land ctx2
  let mode :=
    if i32Trunc pr.1.y > SCREEN_HEIGHT - 1 ∨ obstacle.hit_obstacle pr.1 = true
    then GameMode.End else s.mode
  ({ player := pr.1, frame_time := frame_time, mode := mode, score := score
     obstacle := obstacle }, ctx3)
where
  /-- `render_land`: the ground strip at the bottommost screen row. -/
  render_land (ctx : BTerm) : BTerm :=
    (intRange 0 SCREEN_WIDTH).foldl
      (fun c x => c.push (DrawCmd.setCell x (SCREEN_HEIGHT - 1) Color.white Color.navy GROUND_GLPYH))
      ctx

/-- `State::main_menu`. -/
def State.main_menu (s : State) (ctx : BTerm) (draw : ℕ) : State × BTerm :=
  let ctx := ctx.push DrawCmd.cls
  let ctx := ctx.push (DrawCmd.printColorCentered 5 Color.yellow Color.black
    "Welcome to Flappy Dragon")
  let ctx := ctx.push (DrawCmd.printColorCentered 8 Color.cyan Color.black
    "(P) Play Game")
  let ctx := ctx.push (DrawCmd.printColorCentered 9 Color.cyan Color.black
    "(Q) Quit Game")
  match ctx.key with
  | some Key.P => (s.restart draw, ctx)
  | some Key.Q => (s, { ctx with quitting := true })
  | _ => (s, ctx)

/-- `State::dead`. -/
def State.dead (s : State) (ctx : BTerm) (draw : ℕ) : State × BTerm :=
  let ctx := ctx.push DrawCmd.cls
  let ctx := ctx.push (DrawCmd.printColorCentered 5 Color.red Color.black
    "You are dead!")
  let ctx := ctx.push (DrawCmd.printCentered 6
    (String.append (String.append "You earned " (toString s.score)) " points"))
  let ctx := ctx.push (DrawCmd.printColorCentered 8 Color.cyan Color.black
    "(P) Play Again")
  let ctx := ctx.push (DrawCmd.printColorCentered 9 Color.cyan Color.black
    "(Q) Quit Game")
  match ctx.key with
  | some Key.P => (s.restart draw, ctx)
  | some Key.Q => (s, { ctx with quitting := true })
  | _ => (s, ctx)

/-- `GameState::tick` for `State`: mode dispatch. -/
def State.tick (s : State) (ctx : BTerm) (draw : ℕ) : State × BTerm :=
  match s.mode with
  | GameMode.Menu => s.main_menu ctx draw
  | GameMode.End => s.dead ctx draw
  | GameMode.Playing => s.play ctx draw

end FlappyDragon

namespace FlappyDragon

/-- A terminal tick carrying `ms` elapsed milliseconds, no key pressed,
nothing drawn yet. -/
def msCtx (ms : ℚ) : BTerm :=
  { frame_time_ms := ms, key := none, quitting := false, commands := [] }

/-- State in which the player hovers exactly on the ground row (integer
y = 24), far away from the obstacle. -/
def groundRowState : State :=
  { player := { x := 5, y := 24, velocity := 0 }
    frame_time := 0
    mode := GameMode.Playing
    score := 0
    obstacle := { x := 100, gap_y := 12, size := 6 } }

/-- Frame-time scenario, step 0: a freshly restarted Playing state. -/
def ftScenario0 : State := (State.new 0).restart 0

/-- Frame-time scenario, step 1: after one 50 ms tick. -/
def ftScenario1 : State := (ftScenario0.play (msCtx 50) 0).1

/-- Frame-time scenario, step 2: after one further 10 ms tick. -/
def ftScenario2 : State := (ftScenario1.play (msCtx 10) 0).1

/-- Frame-time scenario, step 3: after another 10 ms tick. -/
def ftScenario3 : State := (ftScenario2.play (msCtx 10) 0).1

/-- Unfolding lemma: the player produced by one Playing-mode tick is the
prior player, gravity-stepped when the accumulator overflows, then flapped
when the space key is down. -/
theorem play_player_eq (s : State) (ctx : BTerm) (draw : ℕ) :
    (s.play ctx draw).1.player =
      (if ctx.key = some Key.Space
        then (if s.frame_time + ctx.frame_time_ms > FRAME_DURATION
              then s.player.gravity_and_move else s.player).flap
        else (if s.frame_time + ctx.frame_time_ms > FRAME_DURATION
              then s.player.gravity_and_move else s.player)) := rfl

/-- Unfolding lemma: the frame-time accumulator after one Playing-mode
tick. -/
theorem play_frame_time_eq (s : State) (ctx : BTerm) (draw : ℕ) :
    (s.play ctx draw).1.frame_time =
      (if s.frame_time + ctx.frame_time_ms > FRAME_DURATION
        then 0 else s.frame_time + ctx.frame_time_ms) := rfl

/-- Unfolding lemma: the score after one Playing-mode tick. -/
theorem play_score_eq (s : State) (ctx : BTerm) (draw : ℕ) :
    (s.play ctx draw).1.score =
      (if (s.play ctx draw).1.player.x > s.obstacle.x then s.score + 1 else s.score) := rfl

/-- Unfolding lemma: the obstacle after one Playing-mode tick. -/
theorem play_obstacle_eq (s : State) (ctx : BTerm) (draw : ℕ) :
    (s.play ctx draw).1.obstacle =
      (if (s.play ctx draw).1.player.x > s.obstacle.x
        then Obstacle.new ((s.play ctx draw).1.player.x + SCREEN_WIDTH) (s.score + 1) draw
        else s.obstacle) := rfl

/-- Unfolding lemma: the mode after one Playing-mode tick. -/
theorem play_mode_eq (s : State) (ctx : BTerm) (draw : ℕ) :
    (s.play ctx draw).1.mode =
      (if i32Trunc (s.play ctx draw).1.player.y > SCREEN_HEIGHT - 1
          ∨ (s.play ctx draw).1.obstacle.hit_obstacle (s.play ctx draw).1.player = true
        then GameMode.End else s.mode) := rfl

/-- Claim C1 (amended): every physics step increments the velocity by 0.1
only when the prior velocity is below the terminal velocity 1.0 and leaves
it unchanged otherwise; the new y is max(0, y + new velocity); x increases
by exactly 1. -/
theorem gravity_and_move_step (p : Player) :
    (p.gravity_and_move).velocity =
        (if p.velocity < TERMINAL_VELOCITY then p.velocity + DELTA_V else p.velocity)
      ∧ (p.gravity_and_move).y = max 0 (p.y + (p.gravity_and_move).velocity)
      ∧ (p.gravity_and_move).x = p.x + 1 := by
  unfold Player.gravity_and_move
  refine ⟨rfl, ?_, rfl⟩
  dsimp only
  rcases le_or_lt 0 (p.y + (if p.velocity < TERMINAL_VELOCITY then p.velocity + DELTA_V else p.velocity)) with h | h
  · rw [if_neg (not_lt.mpr h), max_eq_right h]
  · rw [if_pos h, max_eq_left (le_of_lt h)]

/-- Claim C1, counterexample to the original wording: at prior velocity
0.95 the physics step yields velocity 1.05, not min(0.95 + 0.1, 1.0) = 1.0,
so the update is not a min-clamp. -/
theorem gravity_and_move_min_cex :
    ¬ ((Player.gravity_and_move { x := 0, y := 10, velocity := 19/20 }).velocity
        = min ((19:ℚ)/20 + DELTA_V) TERMINAL_VELOCITY) :=
  of_decide_eq_true (by with_unfolding_all rfl)

/-- Claim C2 (amended): restart, invoked from any mode, resets score to 0,
frame_time to 0, mode to Playing, the player to (x=5, y=12, velocity=0),
and replaces the obstacle with a fresh one at world x = 40 (SCREEN_WIDTH)
whose size is 20 (score-0 sizing max(2, 20 - 0)). -/
theorem restart_resets (s : State) (draw : ℕ) :
    (s.restart draw).score = 0 ∧ (s.restart draw).frame_time = 0
      ∧ (s.restart draw).mode = GameMode.Playing
      ∧ (s.restart draw).player = { x := 5, y := 12, velocity := 0 }
      ∧ (s.restart draw).obstacle.x = SCREEN_WIDTH
      ∧ (s.restart draw).obstacle.size = 20 := by
  refine ⟨rfl, rfl, rfl, ?_, rfl, ?_⟩
  · show Player.new 5 (SCREEN_HEIGHT / 2) = { x := 5, y := 12, velocity := 0 }
    exact of_decide_eq_true (by with_unfolding_all rfl)
  · show max 2 (20 - (0:ℤ)) = 20
    decide

/-- Claim C2, counterexample to the original wording: the obstacle spawned
by restart sits at world x = 40, not 45, and its size is 20, not 18. -/
theorem restart_obstacle_cex :
    ((State.new 0).restart 0).obstacle.x ≠ 45
      ∧ ((State.new 0).restart 0).obstacle.size ≠ 18 := by
  refine ⟨by decide, by decide⟩

/-- Claim C3 (amended): during a Playing-mode tick the mode becomes End if
and only if the truncated vertical position of the player strictly exceeds
the ground row index SCREEN_HEIGHT - 1 = 24 itself (not 24 - 1 = 23), or
the obstacle reports a collision; on no other condition does the mode
leave Playing. -/
theorem play_end_transition (s : State) (ctx : BTerm) (draw : ℕ)
    (h : s.mode = GameMode.Playing) :
    ((s.play ctx draw).1.mode = GameMode.End ↔
        (i32Trunc (s.play ctx draw).1.player.y > SCREEN_HEIGHT - 1
          ∨ (s.play ctx draw).1.obstacle.hit_obstacle (s.play ctx draw).1.player = true))
      ∧ ((s.play ctx draw).1.mode = GameMode.End
          ∨ (s.play ctx draw).1.mode = GameMode.Playing) := by
  rw [play_mode_eq]
  by_cases hc : (i32Trunc (s.play ctx draw).1.player.y > SCREEN_HEIGHT - 1
      ∨ (s.play ctx draw).1.obstacle.hit_obstacle (s.play ctx draw).1.player = true)
  · rw [if_pos hc]
    exact ⟨iff_of_true rfl hc, Or.inl rfl⟩
  · rw [if_neg hc, h]
    exact ⟨iff_of_false (by decide) hc, Or.inr rfl⟩

/-- Claim C3, witness: the amended theorem applied to a freshly restarted
state and a quiet tick. -/
theorem play_end_transition_witness :
    ((((State.new 0).restart 0).play (msCtx 0) 0).1.mode = GameMode.End
      ∨ (((State.new 0).restart 0).play (msCtx 0) 0).1.mode = GameMode.Playing) :=
  (play_end_transition ((State.new 0).restart 0) (msCtx 0) 0 rfl).2

/-- Claim C3, counterexample to the original wording: a player whose
truncated y equals 24 exceeds ground_row - 1 = 23 and does not collide,
yet the tick leaves the mode at Playing rather than End. -/
theorem play_ground_threshold_cex :
    i32Trunc ((groundRowState.play (msCtx 0) 0).1.player.y) > (SCREEN_HEIGHT - 1) - 1
      ∧ (groundRowState.play (msCtx 0) 0).1.obstacle.hit_obstacle
          ((groundRowState.play (msCtx 0) 0).1.player) = false
      ∧ (groundRowState.play (msCtx 0) 0).1.mode = GameMode.Playing :=
  of_decide_eq_true (by with_unfolding_all rfl)

/-- Claim C4 (amended): every constructed obstacle has gap_y in the band
[5, 19]: the random call samples the half-open range [GAP_Y_MIN, GAP_Y_MAX)
= [5, 20), so 5 and 19 are attainable and 20 is not. -/
theorem gap_y_band (x score : ℤ) (draw : ℕ) :
    (GAP_Y_MIN ≤ (Obstacle.new x score draw).gap_y
      ∧ (Obstacle.new x score draw).gap_y ≤ GAP_Y_MAX - 1)
      ∧ (Obstacle.new x score 0).gap_y = GAP_Y_MIN
      ∧ (Obstacle.new x score 14).gap_y = GAP_Y_MAX - 1 := by
  refine ⟨?_, ?_, ?_⟩
  · simp only [Obstacle.new, rngRange, GAP_Y_MIN, GAP_Y_MAX]
    omega
  · show rngRange GAP_Y_MIN GAP_Y_MAX 0 = GAP_Y_MIN
    decide
  · show rngRange GAP_Y_MIN GAP_Y_MAX 14 = GAP_Y_MAX - 1
    decide

/-- Claim C4, counterexample to the original wording: no value of the
injectable random source makes gap_y reach the upper endpoint 20. -/
theorem gap_y_max_unattainable :
    ¬ ∃ draw : ℕ, (Obstacle.new SCREEN_WIDTH 0 draw).gap_y = GAP_Y_MAX := by
  rintro ⟨d, hd⟩
  simp only [Obstacle.new, rngRange, GAP_Y_MIN, GAP_Y_MAX] at hd
  omega

/-- Claim C5: hit_obstacle returns true iff the player column equals the
obstacle column and the player is strictly above or strictly below the gap
edges computed with truncating half-size division; concretely for
gap_y = 12, size = 6, obstacle x = 10: the player at (10, 8) collides,
(10, 9) does not, and (9, 0) does not. -/
theorem hit_obstacle_iff (o : Obstacle) (p : Player) :
    (o.hit_obstacle p = true ↔
        (p.x = o.x ∧ (p.y < ((o.gap_y - Int.tdiv o.size 2 : ℤ) : ℚ)
          ∨ p.y > ((o.gap_y + Int.tdiv o.size 2 : ℤ) : ℚ))))
      ∧ Obstacle.hit_obstacle { x := 10, gap_y := 12, size := 6 } { x := 10, y := 8, velocity := 0 } = true
      ∧ Obstacle.hit_obstacle { x := 10, gap_y := 12, size := 6 } { x := 10, y := 9, velocity := 0 } = false
      ∧ Obstacle.hit_obstacle { x := 10, gap_y := 12, size := 6 } { x := 9, y := 0, velocity := 0 } = false := by
  refine ⟨?_, by decide, by decide, by decide⟩
  simp [Obstacle.hit_obstacle, Bool.and_eq_true, Bool.or_eq_true, decide_eq_true_iff, beq_iff_eq]

/-- Claim C6: each Playing-mode tick first adds the elapsed milliseconds to
frame_time; exactly one physics step (witnessed by the x increment, the
only x mutation) occurs iff the increased accumulator strictly exceeds
FRAME_DURATION = 50, in which case the accumulator resets to exactly 0;
the 50 ms then 10 ms then 10 ms scenario behaves as the claim describes. -/
theorem frame_time_throttle (s : State) (ctx : BTerm) (draw : ℕ) :
    ((s.play ctx draw).1.frame_time =
        (if s.frame_time + ctx.frame_time_ms > FRAME_DURATION
          then 0 else s.frame_time + ctx.frame_time_ms))
      ∧ ((s.play ctx draw).1.player.x =
        (if s.frame_time + ctx.frame_time_ms > FRAME_DURATION
          then s.player.x + 1 else s.player.x))
      ∧ (ftScenario1.frame_time = 50 ∧ ftScenario1.player.x = 5
        ∧ ftScenario2.frame_time = 0 ∧ ftScenario2.player.x = 6
        ∧ ftScenario3.frame_time = 10 ∧ ftScenario3.player.x = 6) := by
  refine ⟨play_frame_time_eq s ctx draw, ?_, ?_⟩
  · rw [play_player_eq]
    by_cases hk : ctx.key = some Key.Space <;>
      by_cases hs : s.frame_time + ctx.frame_time_ms > FRAME_DURATION <;>
      simp [hk, hs, Player.flap, Player.gravity_and_move]
  · exact of_decide_eq_true (by with_unfolding_all rfl)

/-- Claim C7: in a Playing-mode tick where the (post-physics) player column
strictly exceeds the obstacle column, the score increments by exactly 1 and
the obstacle is replaced by a fresh one at player.x + SCREEN_WIDTH created
with the incremented score; otherwise score and obstacle are unchanged. -/
theorem pass_scoring (s : State) (ctx : BTerm) (draw : ℕ) :
    if (s.play ctx draw).1.player.x > s.obstacle.x
    then (s.play ctx draw).1.score = s.score + 1
      ∧ (s.play ctx draw).1.obstacle =
          Obstacle.new ((s.play ctx draw).1.player.x + SCREEN_WIDTH) (s.score + 1) draw
    else (s.play ctx draw).1.score = s.score ∧ (s.play ctx draw).1.obstacle = s.obstacle := by
  by_cases hp : (s.play ctx draw).1.player.x > s.obstacle.x
  · rw [if_pos hp]
    exact ⟨by rw [play_score_eq, if_pos hp], by rw [play_obstacle_eq, if_pos hp]⟩
  · rw [if_neg hp]
    exact ⟨by rw [play_score_eq, if_neg hp], by rw [play_obstacle_eq, if_neg hp]⟩

/-- Claim C8 (amended): every obstacle constructed with score s has size
max(2, 20 - s), hence always at least 2; s = 0 gives 20 (not 18), s = 18
gives 2, s = 100 gives 2. -/
theorem obstacle_size_formula (x s : ℤ) (draw : ℕ) :
    (Obstacle.new x s draw).size = max 2 (20 - s)
      ∧ 2 ≤ (Obstacle.new x s draw).size
      ∧ (Obstacle.new x 0 draw).size = 20
      ∧ (Obstacle.new x 18 draw).size = 2
      ∧ (Obstacle.new x 100 draw).size = 2 := by
  refine ⟨rfl, le_max_left _ _, ?_, ?_, ?_⟩
  · show max 2 (20 - (0:ℤ)) = 20
    decide
  · show max 2 (20 - (18:ℤ)) = 2
    decide
  · show max 2 (20 - (100:ℤ)) = 2
    decide

/-- Claim C8, counterexample to the original wording: an obstacle created
with score 0 has size 20, not 18. -/
theorem obstacle_size_score0_cex : (Obstacle.new SCREEN_WIDTH 0 0).size ≠ 18 := by
  decide

/-- Claim C9: rendering never mutates game state: Player.render returns the
player with x, y and velocity untouched, and Obstacle.render returns the
obstacle with x, gap_y and size untouched; only the terminal changes. -/
theorem render_preserves_state (p : Player) (o : Obstacle) (ctx ctx2 : BTerm) (px : ℤ) :
    (p.render ctx).1 = p ∧ (o.render ctx2 px).1 = o :=
  ⟨rfl, rfl⟩

/-- Claim C10: if the player column does not exceed the obstacle column at
the pass-check of a Playing-mode tick, then at the end of the tick the
obstacle column is still at least the player column, so each obstacle
instance can trigger the score increment at most once. -/
theorem obstacle_not_behind (s : State) (ctx : BTerm) (draw : ℕ)
    (h : (s.play ctx draw).1.player.x ≤ s.obstacle.x) :
    (s.play ctx draw).1.player.x ≤ (s.play ctx draw).1.obstacle.x := by
  have hp : ¬ ((s.play ctx draw).1.player.x > s.obstacle.x) := not_lt.mpr h
  rw [play_obstacle_eq, if_neg hp]
  exact h

/-- Claim C10, witness: the invariant theorem applied to a freshly
restarted state and a quiet tick, where the player at column 5 sits behind
the obstacle at column 40. -/
theorem obstacle_not_behind_witness :
    (((State.new 0).restart 0).play (msCtx 0) 0).1.player.x
      ≤ (((State.new 0).restart 0).play (msCtx 0) 0).1.obstacle.x :=
  obstacle_not_behind ((State.new 0).restart 0) (msCtx 0) 0
    (of_decide_eq_true (by with_unfolding_all rfl))

end FlappyDragon
